import Mathlib

/-!
Verification development for the eduagent repository.

Shallow embedding of the parts of the code the claims are about:
* `src/eduagent/rag/strategies.py` — extraction/retrieval strategies and
  `StrategyFactory`;
* `src/eduagent/vector_store/factory.py` — `DefaultVectorStoreFactory`;
* `src/eduagent/vector_store/base.py` — the abstract `VectorStore` contract
  (no backend is implemented in the repository, so the data operations are
  modelled from the specification);
* `src/eduagent/agent_manager/agent_manager.py` — `EducationalAgentManager`;
* `src/eduagent/rag/retrieval.py` — `RAGSystem.extract_document_to_database`;
* `src/eduagent/db/service.py` — `DatabaseService.create` and
  `DatabaseService.get_student_performance`.

Python exceptions are modelled with `Except`; an exception value carries its
class and message in the `PyError` type.  Python `dict`s keyed by strings are
modelled as insertion-ordered association lists with the `dictInsert`
operation reproducing `d[k] = v` (replace in place, else append).  Wall-clock
timestamps (`datetime.now`) and the `processing_time_seconds` response field
are abstracted away; no claim mentions them.
-/

namespace EduAgent

/-- Python exception values relevant to the embedded code: `NotImplementedError`
and `ValueError`, each carrying its message string. -/
inductive PyError where
  | notImplemented (msg : String)
  | valueError (msg : String)
deriving DecidableEq

/-- Insertion-ordered string-keyed dictionary update, as in Python
`d[k] = v`: if the key is present its value is replaced in place, otherwise
the pair is appended at the end. -/
def dictInsert {β : Type} : List (String × β) → String → β → List (String × β)
  | [], k, v => [(k, v)]
  | (k0, v0) :: rest, k, v =>
    if k0 == k then (k0, v) :: rest else (k0, v0) :: dictInsert rest k v

theorem lookup_dictInsert_self {β : Type} (d : List (String × β)) (k : String) (v : β) :
    (dictInsert d k v).lookup k = some v := by
  induction d with
  | nil => simp [dictInsert, List.lookup]
  | cons p rest ih =>
    obtain ⟨k0, v0⟩ := p
    by_cases h : k0 = k
    · subst h
      simp [dictInsert, List.lookup]
    · have hb : (k0 == k) = false := by simp [h]
      have hb2 : (k == k0) = false := by
        simp only [beq_eq_false_iff_ne, ne_eq]
        exact fun he => h he.symm
      simp [dictInsert, hb, List.lookup, hb2, ih]

/- ===================== RAG strategies (src/eduagent/rag/strategies.py) ==== -/

/-- One segmented document section (a dict of section text / position
metadata in the source). -/
structure DocumentSection where
  text : String
  position : Nat
deriving DecidableEq

/-- A knowledge-point record (src/eduagent/db/models.py; only the fields the
claims touch). -/
structure KnowledgePointRec where
  name : String
  textbook_id : String
deriving DecidableEq

/-- An ability-target record tied to a knowledge point. -/
structure AbilityTargetRec where
  name : String
  knowledge_point : String
deriving DecidableEq

/-- A common-mistake record tied to a knowledge point. -/
structure CommonMistakeRec where
  pattern_name : String
  knowledge_point : String
deriving DecidableEq

/-- The concrete extraction-strategy classes of strategies.py.
`hybrid` owns its two delegate sub-strategies, exactly as
`HybridExtractionStrategy.__init__` stores `ai_strategy` and
`rule_strategy`. -/
inductive ExtractionStrategy where
  | glm
  | ruleBased
  | hybrid (ai_strategy : ExtractionStrategy) (rule_strategy : ExtractionStrategy)
deriving DecidableEq

/-- The concrete retrieval-strategy classes of strategies.py. -/
inductive RetrievalStrategy where
  | semantic
  | keyword
  | hybrid (semantic_strategy : RetrievalStrategy) (keyword_strategy : RetrievalStrategy)
  | educational
deriving DecidableEq

/-- Model of `extract_knowledge_points`: every concrete class raises
`NotImplementedError` with its class-specific message. -/
def extract_knowledge_points (s : ExtractionStrategy)
    (document_sections : List DocumentSection) (textbook_id : String) :
    Except PyError (List KnowledgePointRec) :=
  match s, document_sections, textbook_id with
  | .glm, _, _ => .error (.notImplemented
      "GLM extraction strategy must implement extract_knowledge_points method")
  | .ruleBased, _, _ => .error (.notImplemented
      "Rule-based extraction strategy must implement extract_knowledge_points method")
  | .hybrid _ _, _, _ => .error (.notImplemented
      "Hybrid extraction strategy must implement extract_knowledge_points method")

/-- Model of `extract_ability_targets`: every concrete class raises
`NotImplementedError` with its class-specific message. -/
def extract_ability_targets (s : ExtractionStrategy)
    (knowledge_point : KnowledgePointRec) (context : String) :
    Except PyError (List AbilityTargetRec) :=
  match s, knowledge_point, context with
  | .glm, _, _ => .error (.notImplemented
      "GLM extraction strategy must implement extract_ability_targets method")
  | .ruleBased, _, _ => .error (.notImplemented
      "Rule-based extraction strategy must implement extract_ability_targets method")
  | .hybrid _ _, _, _ => .error (.notImplemented
      "Hybrid extraction strategy must implement extract_ability_targets method")

/-- Model of `extract_common_mistakes`: every concrete class raises
`NotImplementedError` with its class-specific message. -/
def extract_common_mistakes (s : ExtractionStrategy)
    (knowledge_point : KnowledgePointRec) (context : String) :
    Except PyError (List CommonMistakeRec) :=
  match s, knowledge_point, context with
  | .glm, _, _ => .error (.notImplemented
      "GLM extraction strategy must implement extract_common_mistakes method")
  | .ruleBased, _, _ => .error (.notImplemented
      "Rule-based extraction strategy must implement extract_common_mistakes method")
  | .hybrid _ _, _, _ => .error (.notImplemented
      "Hybrid extraction strategy must implement extract_common_mistakes method")

/-- Model of `StrategyFactory.create_extraction_strategy` (strategies.py lines
260-276). -/
def create_extraction_strategy (strategy_type : String) :
    Except PyError ExtractionStrategy :=
  if strategy_type == "glm" then .ok .glm
  else if strategy_type == "rule_based" then .ok .ruleBased
  else if strategy_type == "hybrid" then .ok (.hybrid .glm .ruleBased)
  else .error (.valueError ("Unknown extraction strategy: " ++ strategy_type))

/-- Model of `StrategyFactory.create_retrieval_strategy` (strategies.py lines
278-296). -/
def create_retrieval_strategy (strategy_type : String) :
    Except PyError RetrievalStrategy :=
  if strategy_type == "semantic" then .ok .semantic
  else if strategy_type == "keyword" then .ok .keyword
  else if strategy_type == "hybrid" then .ok (.hybrid .semantic .keyword)
  else if strategy_type == "educational" then .ok .educational
  else .error (.valueError ("Unknown retrieval strategy: " ++ strategy_type))

/- ============== Vector store factory (src/eduagent/vector_store/factory.py) == -/

/-- Python `str.lower()` as the factory uses it on backend names, mapping
each character to its lowercase form (ASCII case; backend names in the
repository are ASCII). -/
def py_lower (s : String) : String := ⟨s.data.map Char.toLower⟩

/-- Model of `VectorStoreConfig` (vector_store/base.py lines 55-63). -/
structure VectorStoreConfig where
  backend : String
  connection_string : Option String := none
  collection_name : String := "eduagent_vectors"
  dimension : Option Nat := none
  index_type : String := "hnsw"
  distance_metric : String := "cosine"
deriving DecidableEq

/-- Model of `DefaultVectorStoreFactory`: a dictionary of registered backends, keyed by
lowercased backend name, each mapping to a constructor (the Python
`type[VectorStore]`, applied to the config).  `V` stands for the backend
instance type. -/
structure DefaultVectorStoreFactory (V : Type) where
  backends : List (String × (VectorStoreConfig → V)) := []

/-- Model of `DefaultVectorStoreFactory.register_backend` (factory.py lines 21-31):
stores the constructor under the lowercased backend name. -/
def register_backend {V : Type} (f : DefaultVectorStoreFactory V)
    (backend_name : String) (backend_class : VectorStoreConfig → V) :
    DefaultVectorStoreFactory V :=
  { f with backends := dictInsert f.backends (py_lower backend_name) backend_class }

/-- The error message built by `create_vector_store` for an unsupported
backend (factory.py lines 48-54). -/
def unsupported_backend_msg {V : Type} (f : DefaultVectorStoreFactory V)
    (backend_name : String) : String :=
  "Unsupported vector store backend: " ++ backend_name ++
    ". Available backends: " ++ String.intercalate ", " (f.backends.map (·.1))

/-- Model of `DefaultVectorStoreFactory.create_vector_store` (factory.py lines 33-57):
lowercases `config.backend`, then either constructs an instance with the
registered class or raises `ValueError`. -/
def create_vector_store {V : Type} (f : DefaultVectorStoreFactory V)
    (config : VectorStoreConfig) : Except PyError V :=
  let backend_name := (py_lower config.backend)
  match f.backends.lookup backend_name with
  | some backend_class => .ok (backend_class config)
  | none => .error (.valueError (unsupported_backend_msg f backend_name))

/-- Model of `DefaultVectorStoreFactory.is_backend_supported` (factory.py lines
68-78). -/
def is_backend_supported {V : Type} (f : DefaultVectorStoreFactory V)
    (backend_name : String) : Bool :=
  (f.backends.lookup (py_lower backend_name)).isSome

/- ============== Spec-modelled VectorStore data operations ================= -/

/-- Model of `Document` (vector_store/base.py lines 20-26); metadata values are
modelled as strings, exact-match being the only operation the contract
uses. -/
structure Document where
  id : String
  content : String
  metadata : List (String × String) := []
  embedding : Option (List ℚ) := none
deriving DecidableEq

/-- Model of `SearchQuery` (vector_store/base.py lines 37-43). -/
structure SearchQuery where
  embedding : List ℚ
  limit : Nat := 10
  filter_metadata : List (String × String) := []
  score_threshold : Option ℚ := none
deriving DecidableEq

/-- Model of `SearchResult` (vector_store/base.py lines 29-34). -/
structure SearchResult where
  document : Document
  score : ℚ
deriving DecidableEq

/-- A document's metadata matches a filter when every key/value pair of the
filter is present in the metadata as an exact match. -/
def metadataMatches (filt md : List (String × String)) : Bool :=
  filt.all (fun kv => md.lookup kv.1 == some kv.2)

/-- Descending-score order on search results. -/
def byDescendingScore (a b : SearchResult) : Prop := b.score ≤ a.score

instance : DecidableRel byDescendingScore := fun a b =>
  inferInstanceAs (Decidable (b.score ≤ a.score))

instance : IsTotal SearchResult byDescendingScore :=
  ⟨fun a b => le_total b.score a.score⟩

instance : IsTrans SearchResult byDescendingScore :=
  ⟨fun _ _ _ h1 h2 => le_trans h2 h1⟩

/-- Modelled from the spec: no concrete `VectorStore` backend exists in the
repository (`VectorStore.search` in vector_store/base.py is abstract and
factory.py registers zero backends), so the search contract of spec section
4.2 is modelled directly, in three named pipeline steps.  This first step
restricts to documents whose metadata matches every key/value pair of
`query.filter_metadata` and scores them with the backend's similarity
function `sim`. -/
def search_scored (sim : List ℚ → Document → ℚ) (docs : List Document)
    (query : SearchQuery) : List SearchResult :=
  (docs.filter (fun d => metadataMatches query.filter_metadata d.metadata)).map
    (fun d => SearchResult.mk d (sim query.embedding d))

/-- The threshold step of the modelled search: keep only results whose score
is at or above `query.score_threshold`, when that threshold is set. -/
def search_thresholded (sim : List ℚ → Document → ℚ) (docs : List Document)
    (query : SearchQuery) : List SearchResult :=
  match query.score_threshold with
  | none => search_scored sim docs query
  | some t => (search_scored sim docs query).filter (fun r => t ≤ r.score)

/-- The final step of the modelled search: sort by descending score and
return at most `query.limit` results. -/
def search (sim : List ℚ → Document → ℚ) (docs : List Document)
    (query : SearchQuery) : List SearchResult :=
  ((search_thresholded sim docs query).insertionSort byDescendingScore).take query.limit

/-- Modelled from the spec: `VectorStore.get_document` is abstract in the
repository; per the contract it returns the stored document with the given
id, or none rather than erroring when absent. -/
def get_document (docs : List Document) (document_id : String) : Option Document :=
  docs.find? (fun d => d.id == document_id)

/-- Modelled from the spec: `VectorStore.delete_document` is abstract in the
repository; per the contract it returns whether a document existed and was
removed, and never throws for a missing id.  Returns the found/not-found
boolean together with the store contents after the call. -/
def delete_document (docs : List Document) (document_id : String) :
    Bool × List Document :=
  if docs.any (fun d => d.id == document_id) then
    (true, docs.filter (fun d => d.id != document_id))
  else
    (false, docs)

/- ======= Agent manager (src/eduagent/agent_manager/agent_manager.py) ====== -/

/-- Model of `AgentRequest`: the declared type string and an abstract payload (the
Python payload dict is abstracted to a string; the manager only passes it
through). -/
structure AgentRequest where
  type : String
  payload : String

/-- Model of `BaseAgent` as the manager sees it: an id, the static capabilities dict
returned by `get_agent_capabilities`, and the two behaviours the manager
invokes.  `process_request` raising an exception is modelled by
`Except String` carrying the exception's textual message `str(e)`. -/
structure BaseAgent where
  agent_id : String
  capabilities : List (String × String)
  validate_request : String → Bool
  process_request : String → Except String String

/-- One `RequestLog` entry (timestamps abstracted away). -/
structure RequestLog where
  request : String
  status : String
  agent_id : Option String := none
  error : Option String := none

/-- Model of `AgentError` (error_type, the Python exception class name, is not
modelled; modelled exceptions carry only their message). -/
structure AgentError where
  error_message : String
  agent_id : String
  suggestions : List String
  alternative_agents : List String

/-- The shapes of the `response_data` dict built by `handle_request` on its
four paths. -/
inductive ResponseData where
  | no_agent (error : String) (available_agents : List String)
  | invalid (error : String) (agent_id : String)
  | ok_data (data : String)
  | failure (error : String) (suggestions : List String)

/-- Model of `AgentResponse` (processing_time_seconds, a wall-clock measurement, is
abstracted away). -/
structure AgentResponse where
  success : Bool
  agent_id : String
  response_data : ResponseData
  error_message : Option String := none

/-- Model of `EducationalAgentManager` state.  The `tools` dictionary is not involved
in any routed claim and is omitted. -/
structure EducationalAgentManager where
  agents : List (String × BaseAgent) := []
  agent_mapping : List (String × String) := []
  request_log : List RequestLog := []

/-- Model of `EducationalAgentManager.add_agent` (agent_manager.py lines 141-151):
stores the agent under its id and maps its declared `agent_type` capability
(defaulting to "general") to its id.  The agent set-up side effect (initialization) on
the agent itself is not modelled. -/
def add_agent (m : EducationalAgentManager) (agent : BaseAgent) :
    EducationalAgentManager :=
  let agent_type := (agent.capabilities.lookup "agent_type").getD "general"
  { m with
    agents := dictInsert m.agents agent.agent_id agent,
    agent_mapping := dictInsert m.agent_mapping agent_type agent.agent_id }

/-- Model of `EducationalAgentManager.find_agent_for_request` (agent_manager.py lines
157-169). -/
def find_agent_for_request (m : EducationalAgentManager)
    (request : AgentRequest) : String :=
  let request_type := request.type
  if request_type ∈ ["question_generation", "generate_questions"] then
    (m.agent_mapping.lookup "question_generator").getD ""
  else if request_type ∈ ["assessment", "evaluate_answers"] then
    (m.agent_mapping.lookup "assessment").getD ""
  else if request_type ∈ ["tutoring", "explanation", "learning_support"] then
    (m.agent_mapping.lookup "tutor").getD ""
  else
    ((m.agents.head?.map (·.1))).getD ""

/-- Model of `EducationalAgentManager.handle_agent_error` (agent_manager.py lines
314-322). -/
def handle_agent_error (m : EducationalAgentManager) (agent_id : String)
    (error : String) : AgentError :=
  { error_message := error,
    agent_id := agent_id,
    suggestions := ["try_again", "use_different_agent"],
    alternative_agents := (m.agents.map (·.1)).filter (fun aid => aid != agent_id) }

/-- Replace the last element of a list, as in `self.request_log[-1] = ...`. -/
def updateLast {α : Type} (f : α → α) : List α → List α
  | [] => []
  | [a] => [f a]
  | a :: b :: rest => a :: updateLast f (b :: rest)

/-- Model of `EducationalAgentManager.handle_request` (agent_manager.py lines
171-246): append a processing log entry, route, then answer on one of the
four paths (no suitable agent / invalid request / success / caught agent
exception), updating the last log entry accordingly. -/
def handle_request (m : EducationalAgentManager) (request : AgentRequest) :
    AgentResponse × EducationalAgentManager :=
  let log_entry : RequestLog := { request := request.payload, status := "processing" }
  let m1 : EducationalAgentManager :=
    { m with request_log := m.request_log ++ [log_entry] }
  let agent_id := find_agent_for_request m1 request
  let no_agent_response : AgentResponse :=
    { success := false,
      agent_id := "system",
      response_data := .no_agent "No suitable agent found for this request"
        (m1.agents.map (·.1)),
      error_message := some "No suitable agent found" }
  match m1.agents.lookup agent_id with
  | none => (no_agent_response, m1)
  | some agent =>
    if agent_id == "" then (no_agent_response, m1)
    else if !agent.validate_request request.payload then
      ({ success := false,
         agent_id := agent_id,
         response_data := .invalid "Request not valid for this agent" agent_id,
         error_message := some "Request not valid for this agent" }, m1)
    else
      match agent.process_request request.payload with
      | .ok response_data =>
        let completed_log :=
          updateLast (fun r => { r with status := "completed", agent_id := some agent_id })
            m1.request_log
        ({ success := true,
           agent_id := agent_id,
           response_data := .ok_data response_data },
         { m1 with request_log := completed_log })
      | .error e =>
        let error_response := handle_agent_error m1 agent_id e
        let failed_log :=
          updateLast (fun r => { r with status := "failed", error := some e })
            m1.request_log
        ({ success := false,
           agent_id := agent_id,
           response_data := .failure e error_response.suggestions,
           error_message := some e },
         { m1 with request_log := failed_log })

/- ==== Textbook ingestion (src/eduagent/rag/retrieval.py, db/service.py) === -/

/-- A `Textbook` record (only the fields the ingestion claim touches; the
row's id is identified with its title here, since id generation is an ORM
detail no claim depends on). -/
structure TextbookRec where
  title : String
  extraction_status : String
deriving DecidableEq

/-- A committed database row of one of the record kinds the ingestion
produces. -/
inductive DBRecord where
  | textbook (t : TextbookRec)
  | knowledge_point (kp : KnowledgePointRec)
  | ability_target (a : AbilityTargetRec)
  | common_mistake (c : CommonMistakeRec)
deriving DecidableEq

/-- Model of `DatabaseService.create` (db/service.py lines 48-58): each call opens its
own session, adds one record and commits it immediately; there is no
enclosing transaction, so the new row is durable as soon as the call
returns. -/
def db_create (db : List DBRecord) (record : DBRecord) : List DBRecord :=
  db ++ [record]

/-- Model of `DatabaseService.update_textbook_extraction_status` (db/service.py lines
157-177), restricted to the modelled fields. -/
def update_textbook_extraction_status (db : List DBRecord)
    (textbook_id status : String) : List DBRecord :=
  db.map (fun r => match r with
    | .textbook t => if t.title == textbook_id then .textbook { t with extraction_status := status } else r
    | _ => r)

/-- The injected document-processor dependency of `RAGSystem` (its two
methods are abstract in the repository; any concrete processor may fail). -/
structure DocumentProcessorFns where
  extract_text_and_images : String → Except String String
  segment_document : String → Except String (List DocumentSection)

/-- The injected extraction-strategy dependency of `RAGSystem`, as the
ingestion pipeline calls it: three methods, each of which may raise.  The
strategy is a constructor argument of `RAGSystem`, so the pipeline must be
correct for every strategy.  The `context` dict `{"textbook_id": id}` is
modelled by the id string. -/
structure KnowledgeExtractionStrategyFns where
  extract_knowledge_points : List DocumentSection → String → Except String (List KnowledgePointRec)
  extract_ability_targets : KnowledgePointRec → String → Except String (List AbilityTargetRec)
  extract_common_mistakes : KnowledgePointRec → String → Except String (List CommonMistakeRec)

/-- Step 4 of `RAGSystem.extract_document_to_database` (retrieval.py lines
134-153): for each knowledge point, commit it, then extract and commit its
ability targets and common mistakes, each `create` committing on its own.
An exception propagates, leaving every already-committed row in place. -/
def store_knowledge_loop (strategy : KnowledgeExtractionStrategyFns)
    (textbook_id : String) :
    List KnowledgePointRec → List DBRecord → Except String Unit × List DBRecord
  | [], db => (.ok (), db)
  | kp :: rest, db =>
    let db1 := db_create db (.knowledge_point kp)
    match strategy.extract_ability_targets kp textbook_id with
    | .error e => (.error e, db1)
    | .ok ability_targets =>
      let db2 := ability_targets.foldl (fun d a => db_create d (.ability_target a)) db1
      match strategy.extract_common_mistakes kp textbook_id with
      | .error e => (.error e, db2)
      | .ok common_mistakes =>
        let db3 := common_mistakes.foldl (fun d c => db_create d (.common_mistake c)) db2
        store_knowledge_loop strategy textbook_id rest db3

/-- Model of `RAGSystem.extract_document_to_database` (retrieval.py lines 102-158):
process the document, commit the textbook row, run the extraction loop, then
mark the textbook completed.  The textbook metadata is reduced to the title.
The second component is the database contents after the call, whether it
returned or raised. -/
def extract_document_to_database (processor : DocumentProcessorFns)
    (strategy : KnowledgeExtractionStrategyFns) (db : List DBRecord)
    (file_path : String) (title : String) :
    Except String TextbookRec × List DBRecord :=
  match processor.extract_text_and_images file_path with
  | .error e => (.error e, db)
  | .ok content =>
    match processor.segment_document content with
    | .error e => (.error e, db)
    | .ok sections =>
      let textbook : TextbookRec := { title := title, extraction_status := "processing" }
      let db1 := db_create db (.textbook textbook)
      match strategy.extract_knowledge_points sections textbook.title with
      | .error e => (.error e, db1)
      | .ok knowledge_points =>
        match store_knowledge_loop strategy textbook.title knowledge_points db1 with
        | (.error e, db2) => (.error e, db2)
        | (.ok _, db2) =>
          (.ok { textbook with extraction_status := "completed" },
           update_textbook_extraction_status db2 textbook.title "completed")

/- ===== Student performance (src/eduagent/db/service.py lines 328-359) ==== -/

/-- An `AnswerSubmission` row, restricted to the fields
`get_student_performance` reads; `submitted_at` is a timestamp ordinal and
`score` an exact rational in place of the Python float. -/
structure AnswerSubmissionRec where
  student_id : String
  submitted_at : Int
  is_correct : Bool
  score : ℚ
deriving DecidableEq

/-- The result dict of `get_student_performance`; `submission_count` is
`none` when the key is absent from the returned dict. -/
structure StudentPerformance where
  total_attempts : Nat
  accuracy : ℚ
  average_score : ℚ
  submission_count : Option Nat
deriving DecidableEq

/-- The row filter of `get_student_performance`: match on student id, then
on the optional inclusive date bounds. -/
def performance_filter (student_id : String) (start_date end_date : Option Int)
    (s : AnswerSubmissionRec) : Bool :=
  s.student_id == student_id &&
  (match start_date with | none => true | some d => decide (d ≤ s.submitted_at)) &&
  (match end_date with | none => true | some d => decide (s.submitted_at ≤ d))

/-- Model of `DatabaseService.get_student_performance` (db/service.py lines 328-359). -/
def get_student_performance (db : List AnswerSubmissionRec) (student_id : String)
    (start_date end_date : Option Int) : StudentPerformance :=
  let submissions := db.filter (performance_filter student_id start_date end_date)
  if submissions.isEmpty then
    { total_attempts := 0, accuracy := 0, average_score := 0, submission_count := none }
  else
    let total_attempts := submissions.length
    let correct_attempts := (submissions.filter (fun s => s.is_correct)).length
    let average_score := (submissions.map (fun s => s.score)).sum / total_attempts
    { total_attempts := total_attempts,
      accuracy := (correct_attempts : ℚ) / (total_attempts : ℚ),
      average_score := average_score,
      submission_count := some total_attempts }

/- ============================ Claim theorems ============================== -/

/-- C1: for every strategy-type string outside the recognized set,
`StrategyFactory.create_extraction_strategy` (recognized: glm, rule_based,
hybrid) and `StrategyFactory.create_retrieval_strategy` (recognized:
semantic, keyword, hybrid, educational) raise a `ValueError` whose message
identifies the requested type string, and never return a strategy
instance. -/
theorem strategy_factory_unknown_type_rejected (s : String) :
    (s ≠ "glm" → s ≠ "rule_based" → s ≠ "hybrid" →
      create_extraction_strategy s =
        .error (.valueError ("Unknown extraction strategy: " ++ s)) ∧
      ∀ st, create_extraction_strategy s ≠ .ok st) ∧
    (s ≠ "semantic" → s ≠ "keyword" → s ≠ "hybrid" → s ≠ "educational" →
      create_retrieval_strategy s =
        .error (.valueError ("Unknown retrieval strategy: " ++ s)) ∧
      ∀ st, create_retrieval_strategy s ≠ .ok st) := by
  constructor
  · intro h1 h2 h3
    have he : create_extraction_strategy s =
        .error (.valueError ("Unknown extraction strategy: " ++ s)) := by
      simp [create_extraction_strategy, h1, h2, h3]
    refine ⟨he, fun st hok => ?_⟩
    rw [he] at hok
    exact Except.noConfusion hok
  · intro h1 h2 h3 h4
    have he : create_retrieval_strategy s =
        .error (.valueError ("Unknown retrieval strategy: " ++ s)) := by
      simp [create_retrieval_strategy, h1, h2, h3, h4]
    refine ⟨he, fun st hok => ?_⟩
    rw [he] at hok
    exact Except.noConfusion hok

/-- Witness for C1 at the concrete unrecognized type string "unknown_x". -/
theorem strategy_factory_unknown_type_rejected_witness :
    ("unknown_x" : String) ≠ "glm" ∧
    create_extraction_strategy "unknown_x" =
      .error (.valueError ("Unknown extraction strategy: " ++ "unknown_x")) ∧
    create_retrieval_strategy "unknown_x" =
      .error (.valueError ("Unknown retrieval strategy: " ++ "unknown_x")) :=
  ⟨by decide,
   ((strategy_factory_unknown_type_rejected "unknown_x").1
      (by decide) (by decide) (by decide)).1,
   ((strategy_factory_unknown_type_rejected "unknown_x").2
      (by decide) (by decide) (by decide) (by decide)).1⟩

/-- C5: `StrategyFactory.create_extraction_strategy("hybrid")` returns a
`HybridExtractionStrategy` composing a GLM sub-strategy and a rule-based
sub-strategy as its two delegates, and each of its three extraction methods
raises `NotImplementedError` rather than returning an empty list. -/
theorem hybrid_strategy_composes_and_fails_loudly :
    create_extraction_strategy "hybrid" =
      .ok (.hybrid .glm .ruleBased) ∧
    (∀ document_sections textbook_id,
      extract_knowledge_points (.hybrid .glm .ruleBased) document_sections textbook_id =
        .error (.notImplemented
          "Hybrid extraction strategy must implement extract_knowledge_points method")) ∧
    (∀ knowledge_point context,
      extract_ability_targets (.hybrid .glm .ruleBased) knowledge_point context =
        .error (.notImplemented
          "Hybrid extraction strategy must implement extract_ability_targets method")) ∧
    (∀ knowledge_point context,
      extract_common_mistakes (.hybrid .glm .ruleBased) knowledge_point context =
        .error (.notImplemented
          "Hybrid extraction strategy must implement extract_common_mistakes method")) :=
  ⟨rfl, fun _ _ => rfl, fun _ _ => rfl, fun _ _ => rfl⟩

/-- C2: a backend name registered in a `DefaultVectorStoreFactory` is found
under its lowercased key; `create_vector_store` on a registered backend
returns the instance constructed by the registered backend class, and on an
unregistered backend raises the `ValueError` naming the unsupported
backend. -/
theorem vector_store_factory_create_contract {V : Type}
    (f : DefaultVectorStoreFactory V) (b : String)
    (cls : VectorStoreConfig → V) (config : VectorStoreConfig) :
    ((register_backend f b cls).backends.lookup (py_lower b) = some cls) ∧
    (∀ cls0, f.backends.lookup (py_lower config.backend) = some cls0 →
      create_vector_store f config = .ok (cls0 config)) ∧
    (f.backends.lookup (py_lower config.backend) = none →
      create_vector_store f config =
        .error (.valueError (unsupported_backend_msg f (py_lower config.backend)))) := by
  refine ⟨lookup_dictInsert_self _ _ _, ?_, ?_⟩
  · intro cls0 h
    simp [create_vector_store, h]
  · intro h
    simp [create_vector_store, h]

/-- A demonstration backend constructor for the factory witnesses. -/
def demo_backend_class (config : VectorStoreConfig) : String :=
  "pgvector-store:" ++ config.collection_name

/-- A factory with one registered backend, registered under a mixed-case
name. -/
def demo_factory : DefaultVectorStoreFactory String :=
  register_backend { backends := [] } "PGVector" demo_backend_class

/-- Witness for C2 on `demo_factory`. -/
theorem vector_store_factory_create_contract_witness :
    demo_factory.backends.lookup "pgvector" = some demo_backend_class ∧
    create_vector_store demo_factory { backend := "PGVector" } =
      .ok (demo_backend_class { backend := "PGVector" }) ∧
    create_vector_store demo_factory { backend := "chroma" } =
      .error (.valueError (unsupported_backend_msg demo_factory "chroma")) :=
  ⟨(vector_store_factory_create_contract { backends := [] } "PGVector"
      demo_backend_class { backend := "PGVector" }).1,
   (vector_store_factory_create_contract demo_factory "PGVector"
      demo_backend_class { backend := "PGVector" }).2.1 demo_backend_class rfl,
   (vector_store_factory_create_contract demo_factory "PGVector"
      demo_backend_class { backend := "chroma" }).2.2 rfl⟩

/-- C9: `DefaultVectorStoreFactory` matches backend names case-insensitively
and keeps `is_backend_supported` consistent with `create_vector_store`: a
name equal to a registered one up to ASCII case is supported and constructs,
and a name is unsupported exactly when construction raises the
unsupported-backend `ValueError`. -/
theorem vector_store_factory_case_insensitive {V : Type}
    (f : DefaultVectorStoreFactory V) (b s : String)
    (cls : VectorStoreConfig → V) (config : VectorStoreConfig) :
    ((py_lower s) = (py_lower b) →
      is_backend_supported (register_backend f b cls) s = true) ∧
    ((py_lower s) = (py_lower b) → config.backend = s →
      ∃ v, create_vector_store (register_backend f b cls) config = .ok v) ∧
    (config.backend = s →
      (is_backend_supported f s = false ↔
        ∃ msg, create_vector_store f config = .error (.valueError msg))) := by
  refine ⟨?_, ?_, ?_⟩
  · intro h
    simp [is_backend_supported, register_backend, h, lookup_dictInsert_self]
  · intro h hc
    refine ⟨cls config, ?_⟩
    simp [create_vector_store, register_backend, hc, h, lookup_dictInsert_self]
  · intro hc
    subst hc
    constructor
    · intro h
      cases hl : f.backends.lookup (py_lower config.backend) with
      | some cls0 =>
        rw [show is_backend_supported f config.backend =
            (f.backends.lookup (py_lower config.backend)).isSome from rfl, hl] at h
        exact absurd h (by simp)
      | none =>
        exact ⟨unsupported_backend_msg f (py_lower config.backend), by
          simp [create_vector_store, hl]⟩
    · rintro ⟨msg, hmsg⟩
      cases hl : f.backends.lookup (py_lower config.backend) with
      | none => simp [is_backend_supported, hl]
      | some cls0 =>
        rw [show create_vector_store f config =
            .ok (cls0 config) from by simp [create_vector_store, hl]] at hmsg
        exact Except.noConfusion hmsg

/-- Witness for C9: a backend registered as "qdrant" is visible as "QDrant",
and an unregistered name is unsupported exactly as construction fails. -/
theorem vector_store_factory_case_insensitive_witness :
    is_backend_supported (register_backend
      ({ backends := [] } : DefaultVectorStoreFactory String) "qdrant" demo_backend_class)
      "QDrant" = true ∧
    (create_vector_store (register_backend
      ({ backends := [] } : DefaultVectorStoreFactory String) "qdrant" demo_backend_class)
      { backend := "QDRANT" }).isOk = true ∧
    is_backend_supported demo_factory "milvus" = false ∧
    (create_vector_store demo_factory { backend := "milvus" }).isOk = false := by
  have h1 := (vector_store_factory_case_insensitive
    ({ backends := [] } : DefaultVectorStoreFactory String) "qdrant" "QDrant"
    demo_backend_class { backend := "QDrant" }).1 rfl
  obtain ⟨v, hv⟩ := (vector_store_factory_case_insensitive
    ({ backends := [] } : DefaultVectorStoreFactory String) "qdrant" "QDRANT"
    demo_backend_class { backend := "QDRANT" }).2.1 rfl rfl
  obtain ⟨msg, hmsg⟩ := ((vector_store_factory_case_insensitive
    demo_factory "PGVector" "milvus"
    demo_backend_class { backend := "milvus" }).2.2 rfl).mp rfl
  exact ⟨h1, by rw [hv]; rfl, rfl, by rw [hmsg]; rfl⟩

theorem mem_search_thresholded_of_mem_search {sim : List ℚ → Document → ℚ}
    {docs : List Document} {query : SearchQuery} {r : SearchResult}
    (hr : r ∈ search sim docs query) :
    r ∈ search_thresholded sim docs query :=
  (List.mem_insertionSort byDescendingScore).mp (List.mem_of_mem_take hr)

theorem mem_search_scored_of_mem_thresholded {sim : List ℚ → Document → ℚ}
    {docs : List Document} {query : SearchQuery} {r : SearchResult}
    (hr : r ∈ search_thresholded sim docs query) :
    r ∈ search_scored sim docs query := by
  unfold search_thresholded at hr
  cases hq : query.score_threshold with
  | none => rw [hq] at hr; exact hr
  | some t => rw [hq] at hr; exact (List.mem_filter.mp hr).1

theorem metadataMatches_lookup {filt md : List (String × String)} {k v : String}
    (hm : metadataMatches filt md = true) (hkv : (k, v) ∈ filt) :
    md.lookup k = some v := by
  have := (List.all_eq_true.mp hm) (k, v) hkv
  simpa using this

/-- C3: every `search` call returns at most `query.limit` results, sorted by
non-increasing score, each result's score at or above `query.score_threshold`
when that threshold is set, and each returned document's metadata containing
every key/value pair of `query.filter_metadata` as an exact match. -/
theorem search_contract (sim : List ℚ → Document → ℚ) (docs : List Document)
    (query : SearchQuery) :
    (search sim docs query).length ≤ query.limit ∧
    List.Sorted byDescendingScore (search sim docs query) ∧
    (∀ r ∈ search sim docs query, ∀ t, query.score_threshold = some t → t ≤ r.score) ∧
    (∀ r ∈ search sim docs query, ∀ k v, (k, v) ∈ query.filter_metadata →
      r.document.metadata.lookup k = some v) := by
  refine ⟨List.length_take_le _ _,
    List.Pairwise.sublist (List.take_sublist _ _) (List.sorted_insertionSort _ _),
    ?_, ?_⟩
  · intro r hr t ht
    have h1 := mem_search_thresholded_of_mem_search hr
    unfold search_thresholded at h1
    rw [ht] at h1
    have := (List.mem_filter.mp h1).2
    exact of_decide_eq_true this
  · intro r hr k v hkv
    have h2 := mem_search_scored_of_mem_thresholded (mem_search_thresholded_of_mem_search hr)
    unfold search_scored at h2
    obtain ⟨d, hd, hdr⟩ := List.mem_map.mp h2
    have h3 : metadataMatches query.filter_metadata d.metadata = true :=
      (List.mem_filter.mp hd).2
    have h4 : r.document = d := by rw [← hdr]
    rw [h4]
    exact metadataMatches_lookup h3 hkv

/-- A demonstration similarity function for the search witness, scoring by
document id. -/
def demo_sim (embedding : List ℚ) (d : Document) : ℚ :=
  match embedding with
  | _ => if d.id == "a" then 9 else if d.id == "b" then 7 else 1

/-- Demonstration store contents for the search and delete witnesses. -/
def demo_docs : List Document :=
  [{ id := "a", content := "fractions", metadata := [("subject", "math")] },
   { id := "b", content := "decimals", metadata := [("subject", "math")] },
   { id := "c", content := "grammar", metadata := [("subject", "english")] }]

/-- Demonstration query for the search witness. -/
def demo_query : SearchQuery :=
  { embedding := [1, 0], limit := 2,
    filter_metadata := [("subject", "math")], score_threshold := some 5 }

/-- The top result of the demonstration search. -/
def demo_top : SearchResult :=
  { document := { id := "a", content := "fractions", metadata := [("subject", "math")] },
    score := 9 }

/-- Witness for C3 on a concrete store, query and similarity function. -/
theorem search_contract_witness :
    (search demo_sim demo_docs demo_query).length ≤ demo_query.limit ∧
    List.Sorted byDescendingScore (search demo_sim demo_docs demo_query) ∧
    (5 : ℚ) ≤ demo_top.score ∧
    demo_top.document.metadata.lookup "subject" = some "math" := by
  obtain ⟨h1, h2, h3, h4⟩ := search_contract demo_sim demo_docs demo_query
  have hmem : demo_top ∈ search demo_sim demo_docs demo_query := by decide
  exact ⟨h1, h2, h3 demo_top hmem 5 rfl, h4 demo_top hmem "subject" "math" (by decide)⟩

/-- C4: deleting a present document id returns true and a subsequent
`get_document` for that id returns none; deleting an absent id returns false
without error and leaves the store unchanged (`get_document` on an absent id
returns none rather than raising). -/
theorem delete_get_contract (docs : List Document) (document_id : String) :
    ((get_document docs document_id).isSome = true →
      (delete_document docs document_id).1 = true ∧
      get_document (delete_document docs document_id).2 document_id = none) ∧
    (get_document docs document_id = none →
      (delete_document docs document_id).1 = false ∧
      (delete_document docs document_id).2 = docs) := by
  constructor
  · intro h
    obtain ⟨d, hd, hp⟩ := List.find?_isSome.mp h
    have hany : docs.any (fun d => d.id == document_id) = true :=
      List.any_eq_true.mpr ⟨d, hd, hp⟩
    refine ⟨by simp [delete_document, hany], ?_⟩
    have hdel : (delete_document docs document_id).2 =
        docs.filter (fun d => d.id != document_id) := by
      simp [delete_document, hany]
    rw [hdel]
    simp only [get_document, List.find?_eq_none]
    intro d hd
    have := (List.mem_filter.mp hd).2
    simpa using this
  · intro h
    have hnone := List.find?_eq_none.mp h
    have hany : docs.any (fun d => d.id == document_id) = false :=
      List.any_eq_false.mpr hnone
    constructor
    · simp [delete_document, hany]
    · simp [delete_document, hany]

/-- Witness for C4 on a concrete store: present id "a", absent id "zzz". -/
theorem delete_get_contract_witness :
    (delete_document demo_docs "a").1 = true ∧
    get_document (delete_document demo_docs "a").2 "a" = none ∧
    (delete_document demo_docs "zzz").1 = false ∧
    (delete_document demo_docs "zzz").2 = demo_docs := by
  have h1 := (delete_get_contract demo_docs "a").1 (by decide)
  have h2 := (delete_get_contract demo_docs "zzz").2 (by decide)
  exact ⟨h1.1, h1.2, h2.1, h2.2⟩

/-- A demonstration tutor agent whose processing always succeeds. -/
def demo_tutor_agent : BaseAgent :=
  { agent_id := "tutor_agent_1",
    capabilities := [("agent_type", "tutor")],
    validate_request := fun _ => true,
    process_request := fun p => .ok p }

/-- A manager with only the tutor agent registered. -/
def tutor_only_manager : EducationalAgentManager :=
  add_agent {} demo_tutor_agent

/-- C6 counterexample: with only a tutor agent registered, the request type
"question_generation" has no mapping in the agent-type table (built at
registration time), yet `find_agent_for_request` returns the empty string,
not the id of the first registered agent. -/
theorem find_agent_default_counterexample :
    find_agent_for_request tutor_only_manager
      { type := "question_generation", payload := "p" } = "" ∧
    tutor_only_manager.agents.map (fun p => p.1) = ["tutor_agent_1"] ∧
    ("" : String) ≠ "tutor_agent_1" :=
  ⟨rfl, rfl, by decide⟩

/-- C6 (amended): `find_agent_for_request` falls back to the first registered
agent only for request types outside the seven recognized routing strings;
for a recognized request type whose canonical agent type has no entry in the
mapping table it returns the empty string instead. -/
theorem find_agent_routing_amended (m : EducationalAgentManager)
    (request : AgentRequest) :
    (request.type ∉ (["question_generation", "generate_questions", "assessment",
        "evaluate_answers", "tutoring", "explanation", "learning_support"] : List String) →
      ∀ a rest, m.agents = a :: rest →
        find_agent_for_request m request = a.1) ∧
    (request.type ∈ (["question_generation", "generate_questions"] : List String) →
      m.agent_mapping.lookup "question_generator" = none →
      find_agent_for_request m request = "") ∧
    (request.type ∈ (["assessment", "evaluate_answers"] : List String) →
      m.agent_mapping.lookup "assessment" = none →
      find_agent_for_request m request = "") ∧
    (request.type ∈ (["tutoring", "explanation", "learning_support"] : List String) →
      m.agent_mapping.lookup "tutor" = none →
      find_agent_for_request m request = "") := by
  obtain ⟨ty, pl⟩ := request
  refine ⟨?_, ?_, ?_, ?_⟩
  · intro h a rest hm
    simp only [List.mem_cons, List.not_mem_nil, or_false, not_or] at h
    obtain ⟨h1, h2, h3, h4, h5, h6, h7⟩ := h
    simp [find_agent_for_request, h1, h2, h3, h4, h5, h6, h7, hm]
  · intro h hl
    simp only [List.mem_cons, List.not_mem_nil, or_false] at h
    rcases h with h | h <;> subst h <;> simp [find_agent_for_request, hl]
  · intro h hl
    simp only [List.mem_cons, List.not_mem_nil, or_false] at h
    rcases h with h | h <;> subst h <;> simp [find_agent_for_request, hl]
  · intro h hl
    simp only [List.mem_cons, List.not_mem_nil, or_false] at h
    rcases h with h | h | h <;> subst h <;> simp [find_agent_for_request, hl]

/-- Witness for C6 (amended): an unrecognized type falls back to the first
registered agent, while an unmapped recognized type yields the empty
string. -/
theorem find_agent_routing_amended_witness :
    find_agent_for_request tutor_only_manager
      { type := "smalltalk", payload := "p" } = "tutor_agent_1" ∧
    find_agent_for_request tutor_only_manager
      { type := "question_generation", payload := "p" } = "" := by
  constructor
  · exact (find_agent_routing_amended tutor_only_manager
      { type := "smalltalk", payload := "p" }).1 (by decide)
      ("tutor_agent_1", demo_tutor_agent) [] rfl
  · exact (find_agent_routing_amended tutor_only_manager
      { type := "question_generation", payload := "p" }).2.1 (by decide) rfl

theorem find_agent_log_irrelevant (m : EducationalAgentManager)
    (l : List RequestLog) (request : AgentRequest) :
    find_agent_for_request { m with request_log := l } request =
      find_agent_for_request m request := rfl

theorem handle_agent_error_log_irrelevant (m : EducationalAgentManager)
    (l : List RequestLog) (aid e : String) :
    handle_agent_error { m with request_log := l } aid e =
      handle_agent_error m aid e := rfl

/-- C7: when the selected agent's `process_request` raises, `handle_request`
does not propagate the exception: it returns a response with `success` false
carrying the exception's message and the static suggestion list, and
`handle_agent_error` lists as alternatives exactly the registered agent ids
other than the failing one. -/
theorem handle_request_wraps_agent_failure (m : EducationalAgentManager)
    (request : AgentRequest) (agent : BaseAgent) (e : String)
    (hid : find_agent_for_request m request ≠ "")
    (hagent : m.agents.lookup (find_agent_for_request m request) = some agent)
    (hvalid : agent.validate_request request.payload = true)
    (hfail : agent.process_request request.payload = .error e) :
    (handle_request m request).1.success = false ∧
    (handle_request m request).1.error_message = some e ∧
    (handle_request m request).1.response_data =
      .failure e ["try_again", "use_different_agent"] ∧
    (∀ aid, aid ∈ (handle_agent_error m (find_agent_for_request m request) e).alternative_agents ↔
      (aid ∈ m.agents.map (fun p => p.1) ∧ aid ≠ find_agent_for_request m request)) := by
  have hbeq : (find_agent_for_request m request == "") = false := by
    simpa using hid
  have key : (handle_request m request).1 =
      { success := false,
        agent_id := find_agent_for_request m request,
        response_data := .failure e ["try_again", "use_different_agent"],
        error_message := some e } := by
    simp only [handle_request]
    rw [find_agent_log_irrelevant, hagent]
    simp [hbeq, hvalid, hfail, handle_agent_error_log_irrelevant, handle_agent_error]
  refine ⟨by rw [key], by rw [key], by rw [key], ?_⟩
  intro aid
  simp [handle_agent_error, List.mem_filter, bne_iff_ne]

/-- A demonstration tutor agent whose processing always raises. -/
def demo_failing_agent : BaseAgent :=
  { agent_id := "tutor_agent_1",
    capabilities := [("agent_type", "tutor")],
    validate_request := fun _ => true,
    process_request := fun _ => .error "model unavailable" }

/-- A demonstration assessment agent used as the alternative. -/
def demo_backup_agent : BaseAgent :=
  { agent_id := "assessment_agent_1",
    capabilities := [("agent_type", "assessment")],
    validate_request := fun _ => true,
    process_request := fun p => .ok p }

/-- A manager with a failing tutor agent and a healthy assessment agent. -/
def demo_manager : EducationalAgentManager :=
  add_agent (add_agent {} demo_failing_agent) demo_backup_agent

/-- Witness for C7: a tutoring request routed to the failing tutor agent is
answered, not raised, with the exception text, the static suggestions and the
other registered agent as the alternative. -/
theorem handle_request_wraps_agent_failure_witness :
    (handle_request demo_manager { type := "tutoring", payload := "help" }).1.success = false ∧
    (handle_request demo_manager { type := "tutoring", payload := "help" }).1.error_message =
      some "model unavailable" ∧
    (handle_request demo_manager { type := "tutoring", payload := "help" }).1.response_data =
      .failure "model unavailable" ["try_again", "use_different_agent"] ∧
    ("assessment_agent_1" ∈
      (handle_agent_error demo_manager "tutor_agent_1" "model unavailable").alternative_agents) := by
  obtain ⟨h1, h2, h3, h4⟩ := handle_request_wraps_agent_failure demo_manager
    { type := "tutoring", payload := "help" } demo_failing_agent "model unavailable"
    (by decide) rfl rfl rfl
  exact ⟨h1, h2, h3, (h4 "assessment_agent_1").mpr ⟨by decide, by decide⟩⟩

theorem db_create_grows (db : List DBRecord) (r : DBRecord) :
    db <+: db_create db r :=
  ⟨[r], rfl⟩

theorem foldl_db_create_grows {α : Type} (g : α → DBRecord) :
    ∀ (l : List α) (db : List DBRecord),
      db <+: l.foldl (fun d a => db_create d (g a)) db
  | [], _ => List.prefix_rfl
  | a :: l, db =>
    List.IsPrefix.trans (List.prefix_append db [g a])
      (foldl_db_create_grows g l (db ++ [g a]))

theorem store_knowledge_loop_grows (strategy : KnowledgeExtractionStrategyFns)
    (textbook_id : String) :
    ∀ (kps : List KnowledgePointRec) (db : List DBRecord),
      db <+: (store_knowledge_loop strategy textbook_id kps db).2 := by
  intro kps
  induction kps with
  | nil => intro db; exact List.prefix_rfl
  | cons kp rest ih =>
    intro db
    simp only [store_knowledge_loop]
    cases hA : strategy.extract_ability_targets kp textbook_id with
    | error e =>
      dsimp only
      exact db_create_grows db _
    | ok ability_targets =>
      cases hM : strategy.extract_common_mistakes kp textbook_id with
      | error e =>
        dsimp only
        exact (db_create_grows db _).trans
          (foldl_db_create_grows DBRecord.ability_target ability_targets _)
      | ok common_mistakes =>
        dsimp only
        exact (db_create_grows db (.knowledge_point kp)).trans
          ((foldl_db_create_grows DBRecord.ability_target ability_targets
              (db_create db (.knowledge_point kp))).trans
            ((foldl_db_create_grows DBRecord.common_mistake common_mistakes _).trans (ih _)))

theorem mem_store_knowledge_loop_head (strategy : KnowledgeExtractionStrategyFns)
    (textbook_id : String) (kp : KnowledgePointRec) (rest : List KnowledgePointRec)
    (db : List DBRecord) :
    DBRecord.knowledge_point kp ∈
      (store_knowledge_loop strategy textbook_id (kp :: rest) db).2 := by
  simp only [store_knowledge_loop]
  have hmem : DBRecord.knowledge_point kp ∈ db_create db (.knowledge_point kp) := by
    simp [db_create]
  cases hA : strategy.extract_ability_targets kp textbook_id with
  | error e =>
    dsimp only
    exact hmem
  | ok ability_targets =>
    cases hM : strategy.extract_common_mistakes kp textbook_id with
    | error e =>
      dsimp only
      exact (foldl_db_create_grows _ ability_targets _).subset hmem
    | ok common_mistakes =>
      dsimp only
      have h2 := (foldl_db_create_grows DBRecord.ability_target ability_targets
        (db_create db (.knowledge_point kp))).subset hmem
      have h3 := (foldl_db_create_grows DBRecord.common_mistake common_mistakes _).subset h2
      exact (store_knowledge_loop_grows strategy textbook_id rest _).subset h3

theorem mem_update_status_of_kp (db : List DBRecord) (textbook_id status : String)
    (kp : KnowledgePointRec) (h : DBRecord.knowledge_point kp ∈ db) :
    DBRecord.knowledge_point kp ∈
      update_textbook_extraction_status db textbook_id status := by
  unfold update_textbook_extraction_status
  exact List.mem_map.mpr ⟨.knowledge_point kp, h, rfl⟩

/-- A strategy whose common-mistake extraction fails after knowledge points
and ability targets have been committed. -/
def demo_failing_strategy : KnowledgeExtractionStrategyFns :=
  { extract_knowledge_points := fun _ _ =>
      .ok [{ name := "fractions", textbook_id := "Algebra" }],
    extract_ability_targets := fun _ _ =>
      .ok [{ name := "compute", knowledge_point := "fractions" }],
    extract_common_mistakes := fun _ _ => .error "mistake extraction failed" }

/-- A processor that always yields one section. -/
def demo_processor : DocumentProcessorFns :=
  { extract_text_and_images := fun _ => .ok "text",
    segment_document := fun _ => .ok [{ text := "chapter 1", position := 0 }] }

/-- C8 counterexample: an ingestion that fails while extracting common
mistakes leaves the knowledge-point and ability-target rows committed, so
the three record kinds are not created transactionally as a unit. -/
theorem ingestion_not_transactional_counterexample :
    extract_document_to_database demo_processor demo_failing_strategy [] "book.pdf" "Algebra" =
      (.error "mistake extraction failed",
       [.textbook { title := "Algebra", extraction_status := "processing" },
        .knowledge_point { name := "fractions", textbook_id := "Algebra" },
        .ability_target { name := "compute", knowledge_point := "fractions" }]) ∧
    DBRecord.knowledge_point { name := "fractions", textbook_id := "Algebra" } ∈
      (extract_document_to_database demo_processor demo_failing_strategy [] "book.pdf" "Algebra").2 :=
  ⟨rfl, by decide⟩

/-- C8 (amended): ingestion commits each record in its own session as it
goes; a failure anywhere leaves every previously committed row persisted —
in particular, once the first knowledge point has been extracted, its row
persists even when a later step fails. -/
theorem ingestion_commits_survive_failure (processor : DocumentProcessorFns)
    (strategy : KnowledgeExtractionStrategyFns) (db : List DBRecord)
    (file_path title : String) :
    (∀ e, (extract_document_to_database processor strategy db file_path title).1 = .error e →
      db <+: (extract_document_to_database processor strategy db file_path title).2) ∧
    (∀ content sections kp rest,
      processor.extract_text_and_images file_path = .ok content →
      processor.segment_document content = .ok sections →
      strategy.extract_knowledge_points sections title = .ok (kp :: rest) →
      DBRecord.knowledge_point kp ∈
        (extract_document_to_database processor strategy db file_path title).2) := by
  constructor
  · intro e
    unfold extract_document_to_database
    cases h1 : processor.extract_text_and_images file_path with
    | error e0 =>
      intro _
      dsimp only
      exact List.prefix_rfl
    | ok content =>
      dsimp only
      cases h2 : processor.segment_document content with
      | error e0 =>
        intro _
        dsimp only
        exact List.prefix_rfl
      | ok sections =>
        dsimp only
        cases h3 : strategy.extract_knowledge_points sections title with
        | error e0 =>
          intro _
          dsimp only
          exact db_create_grows db _
        | ok kps =>
          dsimp only
          cases hloop : store_knowledge_loop strategy title kps
              (db_create db (.textbook { title := title, extraction_status := "processing" })) with
          | mk res db2 =>
            cases res with
            | error e0 =>
              intro _
              dsimp only
              have hpre := store_knowledge_loop_grows strategy title kps
                (db_create db (.textbook { title := title, extraction_status := "processing" }))
              rw [hloop] at hpre
              exact (db_create_grows db _).trans hpre
            | ok u =>
              intro herr
              exact Except.noConfusion herr
  · intro content sections kp rest h1 h2 h3
    unfold extract_document_to_database
    rw [h1]
    dsimp only
    rw [h2]
    dsimp only
    rw [h3]
    dsimp only
    cases hloop : store_knowledge_loop strategy title (kp :: rest)
        (db_create db (.textbook { title := title, extraction_status := "processing" })) with
    | mk res db2 =>
      have hmem := mem_store_knowledge_loop_head strategy title kp rest
        (db_create db (.textbook { title := title, extraction_status := "processing" }))
      rw [hloop] at hmem
      cases res with
      | error e0 =>
        dsimp only
        exact hmem
      | ok u =>
        dsimp only
        exact mem_update_status_of_kp db2 title "completed" kp hmem

/-- Witness for C8 (amended) at the concrete failing ingestion of the
counterexample scenario. -/
theorem ingestion_commits_survive_failure_witness :
    ([] : List DBRecord) <+:
      (extract_document_to_database demo_processor demo_failing_strategy [] "book.pdf" "Algebra").2 ∧
    DBRecord.knowledge_point { name := "fractions", textbook_id := "Algebra" } ∈
      (extract_document_to_database demo_processor demo_failing_strategy [] "book.pdf" "Algebra").2 := by
  obtain ⟨hp, hm⟩ := ingestion_commits_survive_failure demo_processor
    demo_failing_strategy [] "book.pdf" "Algebra"
  exact ⟨hp "mistake extraction failed" rfl,
    hm "text" [{ text := "chapter 1", position := 0 }]
      { name := "fractions", textbook_id := "Algebra" } [] rfl rfl rfl⟩

/-- C10: over a non-empty set of n matching submissions,
`get_student_performance` returns accuracy = correct count / n,
average_score = score sum / n and submission_count = n; with no matching
submissions it returns exactly total_attempts 0, accuracy 0.0 and
average_score 0.0 with no submission_count key. -/
theorem student_performance_formulas (db : List AnswerSubmissionRec)
    (student_id : String) (start_date end_date : Option Int) :
    (∀ s0 rest, db.filter (performance_filter student_id start_date end_date) = s0 :: rest →
      get_student_performance db student_id start_date end_date =
        { total_attempts := (s0 :: rest).length,
          accuracy := (((s0 :: rest).countP (fun s => s.is_correct)) : ℚ) /
            (((s0 :: rest).length : ℚ)),
          average_score := ((s0 :: rest).map (fun s => s.score)).sum /
            (((s0 :: rest).length : ℚ)),
          submission_count := some (s0 :: rest).length }) ∧
    (db.filter (performance_filter student_id start_date end_date) = [] →
      get_student_performance db student_id start_date end_date =
        { total_attempts := 0, accuracy := 0, average_score := 0,
          submission_count := none }) := by
  constructor
  · intro s0 rest hf
    unfold get_student_performance
    rw [hf]
    simp [List.countP_eq_length_filter]
  · intro hf
    unfold get_student_performance
    rw [hf]
    simp

/-- Demonstration submissions: two in-range rows for student s1 (one
correct), one other student, one out of range. -/
def demo_submissions : List AnswerSubmissionRec :=
  [{ student_id := "s1", submitted_at := 10, is_correct := true, score := 80 },
   { student_id := "s1", submitted_at := 20, is_correct := false, score := 60 },
   { student_id := "s2", submitted_at := 15, is_correct := true, score := 90 },
   { student_id := "s1", submitted_at := 200, is_correct := true, score := 100 }]

/-- Witness for C10: a populated window and an empty one. -/
theorem student_performance_formulas_witness :
    demo_submissions.filter (performance_filter "s1" (some 0) (some 100)) =
      [{ student_id := "s1", submitted_at := 10, is_correct := true, score := 80 },
       { student_id := "s1", submitted_at := 20, is_correct := false, score := 60 }] ∧
    get_student_performance demo_submissions "s1" (some 0) (some 100) =
      { total_attempts := 2, accuracy := 1/2, average_score := 70,
        submission_count := some 2 } ∧
    get_student_performance demo_submissions "zz" none none =
      { total_attempts := 0, accuracy := 0, average_score := 0,
        submission_count := none } := by
  refine ⟨by decide, ?_, ?_⟩
  · have h := (student_performance_formulas demo_submissions "s1" (some 0) (some 100)).1
      { student_id := "s1", submitted_at := 10, is_correct := true, score := 80 }
      [{ student_id := "s1", submitted_at := 20, is_correct := false, score := 60 }]
      (by decide)
    rw [h]
    norm_num
  · exact (student_performance_formulas demo_submissions "zz" none none).2 (by decide)

end EduAgent
